import Mathlib

/-!
Verification development for the AWS agent-course repository.

The repository is Python glue code that provisions AWS resources
(S3 Vectors buckets and indexes, IAM roles and policies, Bedrock
guardrails and knowledge bases) and deploys an agent runtime.  All
AWS calls are modelled by explicit environments describing the
outcome of each call: a call either returns a value or raises an
exception carrying a message, written with `Except String`.
-/

namespace AgentCourse

/-- Result of a Python call: a value, or a raised exception with a message. -/
abbrev Py (α : Type) := Except String α

/-- Whether the character list starts with the given pattern list. -/
def listStartsWith : List Char → List Char → Bool
  | _, [] => true
  | [], _ :: _ => false
  | c :: cs, p :: ps => c = p && listStartsWith cs ps

/-- Whether the pattern occurs as a contiguous sublist. -/
def listHasSub (pat : List Char) : List Char → Bool
  | [] => pat.isEmpty
  | c :: rest => listStartsWith (c :: rest) pat || listHasSub pat rest

/-- Model of the Python substring test, the expression pat in s. -/
def strContains (s pat : String) : Bool :=
  listHasSub pat.data s.data

/-- Whitespace characters stripped by the Python str.strip method. -/
def pyIsSpace (c : Char) : Bool :=
  c = ' ' || c = '\t' || c = '\n' || c = '\r' || c = '\x0b' || c = '\x0c'

/-- Model of the Python str.strip method: drop whitespace at both ends. -/
def pyStrip (s : String) : String :=
  ⟨((s.data.dropWhile pyIsSpace).reverse.dropWhile pyIsSpace).reverse⟩

/-! ## load_documents_from_folder (templates/common.py, lines 267 to 308) -/

/-- One entry yielded by Path.iterdir: its name, its stem, whether it is a
regular file, and the text obtained by reading it (none when opening,
reading or decoding raises). -/
structure DirEntry where
  name : String
  stem : String
  isFile : Bool
  read : Option String
deriving DecidableEq, Repr

/-- State of the documents folder seen by load_documents_from_folder:
the folder is missing, iterating it raises, or it holds the given entries. -/
inductive FolderState where
  | missing
  | iterFails
  | present (entries : List DirEntry)
deriving DecidableEq

/-- A document record built by load_documents_from_folder: the key is the file
stem, the content is the stripped text, and the metadata carries the filename. -/
structure Document where
  key : String
  content : String
  filename : String
deriving DecidableEq, Repr

/-- Loop of load_documents_from_folder over the iterdir entries
(templates/common.py, lines 285 to 301): directories are skipped, a file whose
read raises is skipped, and a file whose stripped content is non-empty
contributes one document record. -/
def loadLoop : List DirEntry → List Document
  | [] => []
  | e :: rest =>
    if e.isFile then
      match e.read with
      | some raw =>
        let content := pyStrip raw
        if content ≠ "" then
          { key := e.stem, content := content, filename := e.name } :: loadLoop rest
        else
          loadLoop rest
      | none => loadLoop rest
    else
      loadLoop rest

/-- Embedding of common.load_documents_from_folder: a missing folder or a
raising iteration yields the empty list, otherwise the loop runs over the
entries. -/
def load_documents_from_folder : FolderState → List Document
  | .missing => []
  | .iterFails => []
  | .present entries => loadLoop entries

/-- Specification-side description of one entry: a regular file whose read
succeeds and whose stripped content is non-empty yields exactly one document. -/
def documentOf (e : DirEntry) : Option Document :=
  if e.isFile then
    match e.read with
    | some raw =>
      if pyStrip raw ≠ "" then
        some { key := e.stem, content := pyStrip raw, filename := e.name }
      else
        none
    | none => none
  else
    none

/-! ## wait_for_knowledge_base_ready (templates/common.py, lines 554 to 592) -/

/-- Outcome of one get_knowledge_base poll: the reported status string, or a
raised exception. -/
inductive PollOutcome where
  | status (s : String)
  | raise (msg : String)
deriving DecidableEq, Repr

/-- Poll loop of wait_for_knowledge_base_ready (templates/common.py, lines 571
to 585), reading poll number i with the given fuel: a raised poll makes the
whole function return false, ACTIVE returns true, FAILED returns false, any
other status sleeps and continues; exhausted fuel is the timeout. -/
def waitLoop (polls : Nat → PollOutcome) (i : Nat) : Nat → Bool
  | 0 => false
  | fuel + 1 =>
    match polls i with
    | .raise _ => false
    | .status s =>
      if s = "ACTIVE" then true
      else if s = "FAILED" then false
      else waitLoop polls (i + 1) fuel

/-- Embedding of common.wait_for_knowledge_base_ready: the loop runs
max_wait_time / 2 times (integer division, range in the source). -/
def wait_for_knowledge_base_ready (polls : Nat → PollOutcome)
    (max_wait_time : Nat := 60) : Bool :=
  waitLoop polls 0 (max_wait_time / 2)

/-- Trace of poll outcomes actually observed by the loop: it ends at the first
raise, ACTIVE or FAILED outcome, or when the fuel runs out. -/
def waitObserved (polls : Nat → PollOutcome) (i : Nat) : Nat → List PollOutcome
  | 0 => []
  | fuel + 1 =>
    match polls i with
    | .raise m => [.raise m]
    | .status s =>
      if s = "ACTIVE" then [.status s]
      else if s = "FAILED" then [.status s]
      else .status s :: waitObserved polls (i + 1) fuel

/-- Number of two-second sleeps the loop performs, counted at the sleep site
of the source (templates/common.py, line 585). -/
def waitSleeps (polls : Nat → PollOutcome) (i : Nat) : Nat → Nat
  | 0 => 0
  | fuel + 1 =>
    match polls i with
    | .raise _ => 0
    | .status s =>
      if s = "ACTIVE" then 0
      else if s = "FAILED" then 0
      else waitSleeps polls (i + 1) fuel + 1

/-- A poll outcome that neither terminates the loop nor raises. -/
def nonTerminal : PollOutcome → Bool
  | .status s => !(s = "ACTIVE") && !(s = "FAILED")
  | .raise _ => false

/-! ## create_policy (templates/common.py, lines 91 to 116) -/

/-- Outcome of the iam create_policy call: created, EntityAlreadyExists, or
some other raised exception. -/
inductive CreateOutcome where
  | ok
  | alreadyExists
  | raise (msg : String)
deriving DecidableEq, Repr

/-- Environment for create_policy: the get_caller_identity lookup and the
create_policy call. -/
structure CreatePolicyEnv where
  callerAccount : Py String
  createCall : CreateOutcome

/-- The policy ARN the source interpolates from the account and the name. -/
def policyArn (account policy_name : String) : String :=
  "arn:aws:iam::" ++ account ++ ":policy/" ++ policy_name

/-- Embedding of common.create_policy: EntityAlreadyExists is swallowed and
the interpolated ARN returned anyway; any other raise reaches the outer
handler, which prints and returns None. -/
def create_policy (env : CreatePolicyEnv) (policy_name : String) : Option String :=
  match env.callerAccount with
  | .error _ => none
  | .ok account =>
    match env.createCall with
    | .ok => some (policyArn account policy_name)
    | .alreadyExists => some (policyArn account policy_name)
    | .raise _ => none

/-! ## create_guardrail (templates/common.py, lines 170 to 264) -/

/-- Fields of a create_guardrail API response that the source reads. -/
structure GuardrailResponse where
  guardrailId : Option String
  guardrailArn : Option String
  version : Option String
deriving DecidableEq, Repr

/-- One summary entry of a list_guardrails response. -/
structure GuardrailSummary where
  name : String
  guardrailId : Option String
  id : Option String
  guardrailArn : Option String
  arn : Option String
  version : Option String
deriving DecidableEq, Repr

/-- Value the embedded create_guardrail returns to its caller. -/
structure GuardrailResult where
  guardrailId : Option String
  guardrailArn : Option String
  version : Option String
deriving DecidableEq, Repr

/-- Environment for create_guardrail: the create call and the list_guardrails
lookup used when the create reports a conflict. -/
structure GuardrailEnv where
  createCall : Py GuardrailResponse
  listCall : Py (List GuardrailSummary)

/-- The fixed name the source gives the guardrail. -/
def guardrailName : String := "aws-assistant-guardrail"

/-- Embedding of common.create_guardrail: a successful response must carry
guardrailId and guardrailArn; a raise whose message mentions
ConflictException or already has this name triggers a lookup by name in
list_guardrails, reusing the existing entry; every other failure returns
None. -/
def create_guardrail (env : GuardrailEnv) : Option GuardrailResult :=
  match env.createCall with
  | .ok resp =>
    match resp.guardrailId, resp.guardrailArn with
    | some gid, some garn =>
      some { guardrailId := some gid, guardrailArn := some garn,
             version := resp.version }
    | _, _ => none
  | .error message =>
    if strContains message "ConflictException"
        || strContains message "already has this name" then
      match env.listCall with
      | .error _ => none
      | .ok summaries =>
        match summaries.find? (fun g => g.name = guardrailName) with
        | some existing =>
          some { guardrailId := existing.guardrailId <|> existing.id,
                 guardrailArn := existing.guardrailArn <|> existing.arn,
                 version := some (existing.version.getD "DRAFT") }
        | none => none
    else none

/-! ## create_knowledge_base (templates/common.py, lines 465 to 551) -/

/-- One summary entry of a list_knowledge_bases response. -/
structure KbSummary where
  name : String
  knowledgeBaseId : Option String
  id : Option String
deriving DecidableEq, Repr

/-- Environment for create_knowledge_base: the create call (yielding the new
knowledge base id) and the list_knowledge_bases lookup. -/
structure CreateKbEnv where
  createCall : Py String
  listCall : Py (List KbSummary)

/-- Embedding of common.create_knowledge_base: a raise whose message mentions
ConflictException or already exists triggers a lookup by name, returning the
id of the existing entry; a failed lookup re-raises into the outer handler,
which returns None. -/
def create_knowledge_base (env : CreateKbEnv) (kb_name : String) : Option String :=
  match env.createCall with
  | .ok kbId => some kbId
  | .error message =>
    if strContains message "ConflictException"
        || strContains message "already exists" then
      match env.listCall with
      | .error _ => none
      | .ok summaries =>
        match summaries.find? (fun k => k.name = kb_name) with
        | some existing => existing.knowledgeBaseId <|> existing.id
        | none => none
    else none

/-! ## setup_s3_vectors (templates/common.py, lines 311 to 369) -/

/-- Steps of the knowledge-base setup orchestration, at the granularity of the
resources the spec discusses. -/
inductive Step where
  | loadDocs
  | createVectorBucket
  | createVectorIndex
  | listVectorIndexes
  | createIamRole
  | ingestDocuments
  | createKb
  | waitKb
deriving DecidableEq, Repr

/-- One index entry of a list_indexes response. -/
structure S3Index where
  indexName : String
  indexArn : String
deriving DecidableEq, Repr

/-- Environment for setup_s3_vectors: the bucket create, the index create and
the list_indexes calls. -/
structure S3VectorsEnv where
  createBucketCall : Py Unit
  createIndexCall : Py Unit
  listIndexesCall : Py (List S3Index)

/-- Whether a create call succeeded, or raised with a lowered message
containing already exists (the idempotent-creation check of the source). -/
def createOrExistsOk : Py Unit → Bool
  | .ok _ => true
  | .error m => strContains m.toLower "already exists"

/-- Embedding of common.setup_s3_vectors together with the trace of AWS calls
performed.  A create raise whose lowered message contains already exists is
swallowed; any other raise reaches the outer handler, which returns None.
The returned ARN is indexes[0].indexArn of the list response; an empty list
raises IndexError into the outer handler.  The vector_index_name and
embedding_dimensions arguments shape the calls sent but are never compared
against the list response. -/
def setup_s3_vectors_run (env : S3VectorsEnv)
    (vector_bucket_name vector_index_name : String)
    (embedding_dimensions : Nat := 1024) : Option String × List Step :=
  if !createOrExistsOk env.createBucketCall then (none, [.createVectorBucket])
  else
    if !createOrExistsOk env.createIndexCall then
      (none, [.createVectorBucket, .createVectorIndex])
    else
      match env.listIndexesCall with
      | .error _ =>
        (none, [.createVectorBucket, .createVectorIndex, .listVectorIndexes])
      | .ok [] =>
        (none, [.createVectorBucket, .createVectorIndex, .listVectorIndexes])
      | .ok (first :: _) =>
        (some first.indexArn,
          [.createVectorBucket, .createVectorIndex, .listVectorIndexes])

/-- Result of common.setup_s3_vectors. -/
def setup_s3_vectors (env : S3VectorsEnv)
    (vector_bucket_name vector_index_name : String)
    (embedding_dimensions : Nat := 1024) : Option String :=
  (setup_s3_vectors_run env vector_bucket_name vector_index_name
    embedding_dimensions).1

/-- Parameters passed to an s3vectors create_index call. -/
structure IndexConfig where
  vectorBucketName : String
  indexName : String
  dimension : Nat
  distanceMetric : String
  dataType : String
deriving DecidableEq, Repr

/-- The create_index call of common.setup_s3_vectors (lines 344 to 350). -/
def setup_s3_vectors_createIndexCall
    (vector_bucket_name vector_index_name : String)
    (embedding_dimensions : Nat := 1024) : IndexConfig :=
  { vectorBucketName := vector_bucket_name, indexName := vector_index_name,
    dimension := embedding_dimensions, distanceMetric := "cosine",
    dataType := "float32" }

/-! ## vectorize_and_store_documents (templates/common.py, lines 372 to 462) -/

/-- Body of a Titan embedding request as built in the source. -/
structure EmbeddingRequest where
  inputText : String
  dimensions : Nat
  normalize : Bool
deriving DecidableEq, Repr

/-- Environment for vectorize_and_store_documents: the embedding returned for
document number i (numeric values abstracted as integers, since float
arithmetic plays no role in the control flow) and the put_vectors call. -/
structure VectorizeEnv where
  embedCall : Nat → Py (List Int)
  putVectorsCall : Py Unit

/-- The embedding request vectorize_and_store_documents builds for a document
(templates/common.py, lines 410 to 414). -/
def embedding_request (doc : Document)
    (embedding_dimensions : Nat := 1024) : EmbeddingRequest :=
  { inputText := doc.content, dimensions := embedding_dimensions,
    normalize := true }

/-- All embedding requests the document loop issues. -/
def vectorize_requests (documents : List Document)
    (embedding_dimensions : Nat := 1024) : List EmbeddingRequest :=
  documents.map (fun doc => embedding_request doc embedding_dimensions)

/-- Vector records accumulated by the embedding loop: a document whose
invoke_model or response parse raises is skipped with a warning. -/
def vectorizeCollect (env : VectorizeEnv) :
    List (Nat × Document) → List (String × List Int)
  | [] => []
  | (i, doc) :: rest =>
    match env.embedCall i with
    | .ok emb => (doc.key, emb) :: vectorizeCollect env rest
    | .error _ => vectorizeCollect env rest

/-- Embedding of common.vectorize_and_store_documents: false on an empty
document list, false when every embedding failed, otherwise the put_vectors
outcome decides, its raise being caught by the outer handler. -/
def vectorize_and_store_documents (env : VectorizeEnv)
    (documents : List Document) : Bool :=
  if documents.isEmpty then false
  else
    let vectors := vectorizeCollect env documents.enum
    if vectors.isEmpty then false
    else
      match env.putVectorsCall with
      | .ok _ => true
      | .error _ => false

/-! ## attach_policy (templates/common.py, lines 15 to 88) -/

/-- The AWS calls attach_policy can make: the principal existence check, the
list of attached policies, and the attach call itself. -/
inductive AttachCall where
  | getPrincipal
  | listAttached
  | attach
deriving DecidableEq, Repr

/-- Outcome of the get_user or get_role principal check in attach_policy. -/
inductive PrincipalOutcome where
  | found
  | noSuchEntity
  | raise (msg : String)
deriving DecidableEq, Repr

/-- Outcome of the list_attached call: success with the attached ARNs, a
ClientError caught in place, or another raise reaching the outer handler. -/
inductive ListAttachedOutcome where
  | ok (arns : List String)
  | clientError (msg : String)
  | raise (msg : String)
deriving DecidableEq, Repr

/-- Environment for attach_policy. -/
structure AttachPolicyEnv where
  principal : PrincipalOutcome
  listAttached : ListAttachedOutcome
  attachCall : Py Unit

/-- Final attach call of attach_policy (templates/common.py, lines 65 to 84):
a ClientError or any other raise yields failure, otherwise success. -/
def attachFinal (env : AttachPolicyEnv) (policy_arn : String) :
    (Bool × Option String) × List AttachCall :=
  match env.attachCall with
  | .ok _ =>
    ((true, some policy_arn), [.getPrincipal, .listAttached, .attach])
  | .error _ =>
    ((false, none), [.getPrincipal, .listAttached, .attach])

/-- Embedding of common.attach_policy together with the trace of AWS calls it
performs.  An unknown principal type makes no call; a missing principal or a
raising check stops after the check; a ClientError from the listing is
treated as not attached; an already attached policy short-circuits; otherwise
the attach call decides. -/
def attach_policy_run (env : AttachPolicyEnv)
    (attach_to_type attach_to_name policy_arn : String) :
    (Bool × Option String) × List AttachCall :=
  if attach_to_type ≠ "user" ∧ attach_to_type ≠ "role" then
    ((false, none), [])
  else
    match env.principal with
    | .raise _ => ((false, none), [.getPrincipal])
    | .noSuchEntity => ((false, none), [.getPrincipal])
    | .found =>
      match env.listAttached with
      | .raise _ => ((false, none), [.getPrincipal, .listAttached])
      | .clientError _ => attachFinal env policy_arn
      | .ok arns =>
        if policy_arn ∈ arns then
          ((true, some policy_arn), [.getPrincipal, .listAttached])
        else
          attachFinal env policy_arn

/-! ## create_knowledge_base_role (templates/common.py, lines 595 to 699) -/

/-- Outcome of the initial get_role existence check: the role exists, the
NoSuchEntity exception is caught, or another raise reaches the outer
handler. -/
inductive GetRoleOutcome where
  | found
  | noSuchEntity
  | raise (msg : String)
deriving DecidableEq, Repr

/-- Environment for create_knowledge_base_role.  The customPolicy field is
the result of attach_custom_policy, which the source ignores and which never
raises. -/
structure KbRoleEnv where
  callerAccount : Py String
  getRole : GetRoleOutcome
  createRoleCall : Py Unit
  attachBedrockPolicy : Py Unit
  attachS3Policy : Py Unit
  customPolicy : Option String
  verifyOk : Nat → Bool

/-- Verification loop of create_knowledge_base_role (templates/common.py,
lines 675 to 693): up to the given number of get_role attempts, sleeping and
retrying after a failed attempt, reporting failure only when the last attempt
fails.  Returns the verification result and the number of get_role calls
made. -/
def verifyRoleRun (ok : Nat → Bool) (i : Nat) : Nat → Bool × Nat
  | 0 => (false, 0)
  | fuel + 1 =>
    if ok i then (true, 1)
    else if fuel = 0 then (false, 1)
    else
      let r := verifyRoleRun ok (i + 1) fuel
      (r.1, r.2 + 1)

/-- Embedding of common.create_knowledge_base_role: when the role does not
exist it is created and the two managed policies attached (any raise reaching
the outer handler, which returns None), the custom-policy attachment result
is ignored, and the role is then verified by up to 24 get_role attempts. -/
def create_knowledge_base_role (env : KbRoleEnv)
    (role_name : String := "kb-service-role") : Option String :=
  match env.callerAccount with
  | .error _ => none
  | .ok account =>
    let role_arn := "arn:aws:iam::" ++ account ++ ":role/" ++ role_name
    match env.getRole with
    | .raise _ => none
    | .found =>
      if (verifyRoleRun env.verifyOk 0 24).1 then some role_arn else none
    | .noSuchEntity =>
      match env.createRoleCall with
      | .error _ => none
      | .ok _ =>
        match env.attachBedrockPolicy with
        | .error _ => none
        | .ok _ =>
          match env.attachS3Policy with
          | .error _ => none
          | .ok _ =>
            if (verifyRoleRun env.verifyOk 0 24).1 then some role_arn
            else none

/-! ## setup_complete_knowledge_base (templates/common.py, lines 702 to 811) -/

/-- Environment for setup_complete_knowledge_base: the preliminary block
(documents download, extraction and client creation, whose raise is caught by
the outer handler), the documents folder, and the environments of the step
functions. -/
structure SetupEnv where
  pre : Py Unit
  folder : FolderState
  s3 : S3VectorsEnv
  role : KbRoleEnv
  vec : VectorizeEnv
  kb : CreateKbEnv
  waitPolls : Nat → PollOutcome

/-- Embedding of common.setup_complete_knowledge_base together with its step
trace: load documents, set up S3 Vectors (bucket, index, list), create the
IAM role, vectorize and store the documents, create the knowledge base, wait
for it to be ready; each step runs only when every earlier step succeeded,
and any failure returns None. -/
def setup_complete_run (env : SetupEnv)
    (vector_bucket_name : String := "bedrock-vector-bucket")
    (vector_index_name : String := "bedrock-vector-index")
    (kb_name : String := "bedrock-knowledge-base") :
    Option (String × String) × List Step :=
  match env.pre with
  | .error _ => (none, [])
  | .ok _ =>
    let documents := load_documents_from_folder env.folder
    if documents.isEmpty then (none, [.loadDocs])
    else
      let s3run := setup_s3_vectors_run env.s3 vector_bucket_name
        vector_index_name
      match s3run.1 with
      | none => (none, Step.loadDocs :: s3run.2)
      | some vector_index_arn =>
        match create_knowledge_base_role env.role with
        | none => (none, Step.loadDocs :: s3run.2 ++ [Step.createIamRole])
        | some _kb_role_arn =>
          if !vectorize_and_store_documents env.vec documents then
            (none, Step.loadDocs :: s3run.2
              ++ [Step.createIamRole, Step.ingestDocuments])
          else
            match create_knowledge_base env.kb kb_name with
            | none => (none, Step.loadDocs :: s3run.2
                ++ [Step.createIamRole, Step.ingestDocuments, Step.createKb])
            | some knowledge_base_id =>
              if !wait_for_knowledge_base_ready env.waitPolls 60 then
                (none, Step.loadDocs :: s3run.2
                  ++ [Step.createIamRole, Step.ingestDocuments, Step.createKb,
                      Step.waitKb])
              else
                (some (knowledge_base_id, vector_index_arn),
                  Step.loadDocs :: s3run.2
                    ++ [Step.createIamRole, Step.ingestDocuments, Step.createKb,
                        Step.waitKb])

/-- Result of common.setup_complete_knowledge_base. -/
def setup_complete_knowledge_base (env : SetupEnv)
    (vector_bucket_name : String := "bedrock-vector-bucket")
    (vector_index_name : String := "bedrock-vector-index")
    (kb_name : String := "bedrock-knowledge-base") :
    Option (String × String) :=
  (setup_complete_run env vector_bucket_name vector_index_name kb_name).1

/-- The order in which setup_complete_knowledge_base attempts its steps. -/
def setupOrder : List Step :=
  [.loadDocs, .createVectorBucket, .createVectorIndex, .listVectorIndexes,
   .createIamRole, .ingestDocuments, .createKb, .waitKb]

/-! ## Course-script wait loops (c2_u1, c2_u3, kb-test) -/

/-- Vector-index wait loop of setup_s3_vectors_infrastructure
(src/c2_u1_s3_vectors_setup.py, lines 47 to 58) and of
setup_bedrock_knowledge_base (kb-test.py, lines 52 to 64), examined up to
fuel polls: the source has no iteration bound and the loop leaves only when
list_indexes returns a non-empty list, taking the first indexArn. -/
def indexWaitRuns (lists : Nat → List S3Index) (i : Nat) : Nat → Option String
  | 0 => none
  | fuel + 1 =>
    match lists i with
    | [] => indexWaitRuns lists (i + 1) fuel
    | first :: _ => some first.indexArn

/-- How the knowledge-base status wait loop of the course scripts leaves:
normally on ACTIVE, or by raising RuntimeError on FAILED. -/
inductive KbWaitExit where
  | active
  | failedRaise
deriving DecidableEq, Repr

/-- Knowledge-base status wait loop of create_bedrock_knowledge_base
(src/c2_u3_knowledge_base_creation.py, lines 64 to 79) and of
setup_bedrock_knowledge_base (kb-test.py, lines 189 to 204), examined up to
fuel polls: the source has no iteration bound and the loop leaves only on
ACTIVE or FAILED. -/
def kbStatusWaitRuns (statuses : Nat → String) (i : Nat) :
    Nat → Option KbWaitExit
  | 0 => none
  | fuel + 1 =>
    if statuses i = "ACTIVE" then some .active
    else if statuses i = "FAILED" then some .failedRaise
    else kbStatusWaitRuns statuses (i + 1) fuel

/-! ## Index creation and embedding requests across the scripts -/

namespace KbTest

/-- The shared embedding_dimensions constant (kb-test.py, line 32). -/
def embedding_dimensions : Nat := 1024

/-- The create_index call of setup_bedrock_knowledge_base (kb-test.py, lines
42 to 48). -/
def createIndexCall (vector_bucket_name vector_index_name : String) :
    IndexConfig :=
  { vectorBucketName := vector_bucket_name, indexName := vector_index_name,
    dimension := embedding_dimensions, distanceMetric := "cosine",
    dataType := "float32" }

/-- The embedding request built for a document or query (kb-test.py, lines
105 to 109 and 211 to 215). -/
def embeddingRequest (content : String) : EmbeddingRequest :=
  { inputText := content, dimensions := embedding_dimensions,
    normalize := true }

end KbTest

namespace C2U1

/-- The embedding_dimensions constant of setup_s3_vectors_infrastructure
(src/c2_u1_s3_vectors_setup.py, line 26). -/
def embedding_dimensions : Nat := 1024

/-- The create_index call of setup_s3_vectors_infrastructure
(src/c2_u1_s3_vectors_setup.py, lines 36 to 42). -/
def createIndexCall (vector_bucket_name vector_index_name : String) :
    IndexConfig :=
  { vectorBucketName := vector_bucket_name, indexName := vector_index_name,
    dimension := embedding_dimensions, distanceMetric := "cosine",
    dataType := "float32" }

end C2U1

namespace C2U2

/-- The embedding request of generate_and_store_embeddings
(src/c2_u2_embedding_generation.py, lines 67 to 71), with the default
embedding_dimensions of its signature. -/
def embeddingRequest (content : String)
    (embedding_dimensions : Nat := 1024) : EmbeddingRequest :=
  { inputText := content, dimensions := embedding_dimensions,
    normalize := true }

end C2U2

/-! ## main (templates/bedrockAgentCore.py, lines 314 to 378) -/

/-- The user policies main grants (templates/bedrockAgentCore.py, lines 50
to 55). -/
def USER_POLICIES : List String :=
  ["arn:aws:iam::aws:policy/AmazonBedrockFullAccess",
   "arn:aws:iam::aws:policy/BedrockAgentCoreFullAccess",
   "arn:aws:iam::aws:policy/AmazonEC2ContainerRegistryFullAccess",
   "arn:aws:iam::aws:policy/AWSCodeBuildAdminAccess"]

/-- The Bedrock models main enables (templates/bedrockAgentCore.py, lines 44
to 47). -/
def BEDROCK_MODELS : List String :=
  ["anthropic.claude-sonnet-4-20250514-v1:0",
   "amazon.titan-embed-text-v2:0"]

/-- One observable action of main. -/
inductive MainAction where
  | cleanup
  | attachUserPolicy (arn : String)
  | enableModel (modelId : String)
  | createGuardrailStep
  | setupKnowledgeBaseStep
  | configureAgentStep
  | backupConfigStep
  | launchAgentStep
deriving DecidableEq, Repr

/-- Environment for main: the success of each policy attachment and model
enablement (attach_policy and enable_model never raise), the guardrail and
knowledge-base results, and the configure and launch subprocesses, which may
raise; create_config_backup_bucket returns a Bool that main ignores. -/
structure MainEnv where
  attachOk : String → Bool
  enableOk : String → Bool
  guardrail : Option GuardrailResult
  kbResult : Option (String × String)
  configureCall : Py Unit
  backupOk : Bool
  launchCall : Py Unit

/-- Shape shared by the two early loops of main (lines 318 to 327 and 329 to
336): perform one action per item in order, and exit the process at the
first failed item.  Returns whether every item succeeded, with the trace of
actions performed. -/
def phaseLoop (act : String → MainAction) (ok : String → Bool) :
    List String → Bool × List MainAction
  | [] => (true, [])
  | p :: rest =>
    if ok p then
      let r := phaseLoop act ok rest
      (r.1, act p :: r.2)
    else (false, [act p])

/-- Trace of the steps of main after the guardrail step starts (lines 338 to
378): a failed guardrail or knowledge-base setup exits, a raising configure
propagates, and otherwise backup and launch both run. -/
def mainTailTrace (env : MainEnv) : List MainAction :=
  match env.guardrail with
  | none => [.createGuardrailStep]
  | some _ =>
    match env.kbResult with
    | none => [.createGuardrailStep, .setupKnowledgeBaseStep]
    | some _ =>
      match env.configureCall with
      | .error _ => [.createGuardrailStep, .setupKnowledgeBaseStep,
          .configureAgentStep]
      | .ok _ => [.createGuardrailStep, .setupKnowledgeBaseStep,
          .configureAgentStep, .backupConfigStep, .launchAgentStep]

/-- Embedding of main as the trace of actions it performs, in source order:
cleanup, policy attachments, model enablement, guardrail creation,
knowledge-base setup, agent configuration, config backup, agent launch. -/
def mainTrace (env : MainEnv) : List MainAction :=
  if !(phaseLoop .attachUserPolicy env.attachOk USER_POLICIES).1 then
    .cleanup :: (phaseLoop .attachUserPolicy env.attachOk USER_POLICIES).2
  else if !(phaseLoop .enableModel env.enableOk BEDROCK_MODELS).1 then
    .cleanup :: ((phaseLoop .attachUserPolicy env.attachOk USER_POLICIES).2
      ++ (phaseLoop .enableModel env.enableOk BEDROCK_MODELS).2)
  else
    .cleanup :: ((phaseLoop .attachUserPolicy env.attachOk USER_POLICIES).2
      ++ (phaseLoop .enableModel env.enableOk BEDROCK_MODELS).2
      ++ mainTailTrace env)

/-- The complete sequential order of actions of a fully successful main. -/
def mainFullOrder : List MainAction :=
  .cleanup :: (USER_POLICIES.map MainAction.attachUserPolicy
    ++ BEDROCK_MODELS.map MainAction.enableModel
    ++ [.createGuardrailStep, .setupKnowledgeBaseStep, .configureAgentStep,
        .backupConfigStep, .launchAgentStep])

/-! ## Theorems -/

/-- The indexArn of the first entry of the list_indexes response, when the
response succeeded and was non-empty. -/
def firstIndexArn (env : S3VectorsEnv) : Option String :=
  match env.listIndexesCall with
  | .ok (first :: _) => some first.indexArn
  | _ => none

/-- Environment used by the C2 guardrail witness: the first call succeeds. -/
def grEnvFirst : GuardrailEnv :=
  { createCall := .ok { guardrailId := some "gr-1",
                        guardrailArn := some "arn-gr-1",
                        version := some "DRAFT" },
    listCall := .ok [] }

/-- Summary of the guardrail created by the first call, as listed afterwards. -/
def grExisting : GuardrailSummary :=
  { name := guardrailName, guardrailId := some "gr-1", id := none,
    guardrailArn := some "arn-gr-1", arn := none, version := some "DRAFT" }

/-- Environment used by the C2 guardrail witness: the second call conflicts
and the listing shows the resource created by the first call. -/
def grEnvSecond : GuardrailEnv :=
  { createCall := .error "ConflictException: duplicate",
    listCall := .ok [grExisting] }

/-- Summary of the knowledge base created by the first call. -/
def kbExisting : KbSummary :=
  { name := "bedrock-knowledge-base", knowledgeBaseId := some "kb-1",
    id := none }

/-- Environment used by the C2 knowledge-base witness: first call succeeds. -/
def kbEnvFirst : CreateKbEnv :=
  { createCall := .ok "kb-1", listCall := .ok [] }

/-- Environment used by the C2 knowledge-base witness: the second call fails
with an already-exists message and the listing shows the first resource. -/
def kbEnvSecond : CreateKbEnv :=
  { createCall := .error "resource already exists",
    listCall := .ok [kbExisting] }

/-- C2: create_policy, create_guardrail and create_knowledge_base all catch an
already-exists or conflict failure of the underlying create call and return
the identifier of the already-existing resource with the same name, so a
second call with the same name succeeds and yields the same identifier as the
first. -/
theorem idempotent_creation_reuses_existing :
    (∀ account name,
        create_policy { callerAccount := .ok account,
                        createCall := .alreadyExists } name
          = some (policyArn account name)
        ∧ create_policy { callerAccount := .ok account,
                          createCall := .alreadyExists } name
          = create_policy { callerAccount := .ok account,
                            createCall := .ok } name)
    ∧ (∀ (resp : GuardrailResponse) (gid msg : String)
          (gs : List GuardrailSummary) (g : GuardrailSummary)
          (listAny : Py (List GuardrailSummary)),
        resp.guardrailId = some gid →
        resp.guardrailArn.isSome = true →
        (strContains msg "ConflictException" = true
          ∨ strContains msg "already has this name" = true) →
        gs.find? (fun x => x.name = guardrailName) = some g →
        (g.guardrailId <|> g.id) = some gid →
        (create_guardrail { createCall := .ok resp,
                            listCall := listAny }).bind (fun r => r.guardrailId)
            = some gid
        ∧ (create_guardrail { createCall := .error msg,
                              listCall := .ok gs }).bind
              (fun r => r.guardrailId)
            = some gid)
    ∧ (∀ (kb_name kbId msg : String) (ks : List KbSummary) (k : KbSummary)
          (listAny : Py (List KbSummary)),
        (strContains msg "ConflictException" = true
          ∨ strContains msg "already exists" = true) →
        ks.find? (fun x => x.name = kb_name) = some k →
        (k.knowledgeBaseId <|> k.id) = some kbId →
        create_knowledge_base { createCall := .ok kbId,
                                listCall := listAny } kb_name = some kbId
        ∧ create_knowledge_base { createCall := .error msg,
                                  listCall := .ok ks } kb_name = some kbId) := by
  refine ⟨?_, ?_, ?_⟩
  · intro account name
    exact ⟨rfl, rfl⟩
  · intro resp gid msg gs g listAny h1 h2 h3 h4 h5
    obtain ⟨garn, hg⟩ := Option.isSome_iff_exists.mp h2
    constructor
    · simp [create_guardrail, h1, hg]
    · have hcond : (strContains msg "ConflictException"
          || strContains msg "already has this name") = true := by
        rcases h3 with h | h <;> simp [h]
      simp [create_guardrail, hcond, h4, h5]
  · intro kb_name kbId msg ks k listAny h1 h2 h3
    constructor
    · rfl
    · have hcond : (strContains msg "ConflictException"
          || strContains msg "already exists") = true := by
        rcases h1 with h | h <;> simp [h]
      simp [create_knowledge_base, hcond, h2, h3]

/-- Witness for C2 at concrete inputs: a conflicting second creation of the
policy, the guardrail and the knowledge base yields the identifier produced by
the first creation. -/
theorem idempotent_creation_reuses_existing_witness :
    create_policy { callerAccount := .ok "123456789012",
                    createCall := .alreadyExists } "my-policy"
      = create_policy { callerAccount := .ok "123456789012",
                        createCall := .ok } "my-policy"
    ∧ (create_guardrail grEnvFirst).bind (fun r => r.guardrailId)
        = some "gr-1"
    ∧ (create_guardrail grEnvSecond).bind (fun r => r.guardrailId)
        = some "gr-1"
    ∧ create_knowledge_base kbEnvFirst "bedrock-knowledge-base" = some "kb-1"
    ∧ create_knowledge_base kbEnvSecond "bedrock-knowledge-base"
        = some "kb-1" := by
  have hg := idempotent_creation_reuses_existing.2.1
    { guardrailId := some "gr-1", guardrailArn := some "arn-gr-1",
      version := some "DRAFT" }
    "gr-1" "ConflictException: duplicate" [grExisting] grExisting
    (.ok []) rfl rfl (Or.inl (by decide)) (by decide) rfl
  have hk := idempotent_creation_reuses_existing.2.2
    "bedrock-knowledge-base" "kb-1" "resource already exists"
    [kbExisting] kbExisting (.ok [])
    (Or.inr (by decide)) (by decide) rfl
  exact ⟨(idempotent_creation_reuses_existing.1 "123456789012" "my-policy").2,
    hg.1, hg.2, hk.1, hk.2⟩

/-- C6: on every successful run setup_s3_vectors returns the indexArn of the
first element of the list_indexes response, never comparing the index name
against the vector_index_name argument, so when another index is listed first
the returned ARN is not that of the requested index. -/
theorem setup_s3_vectors_returns_first_index :
    (∀ env bucket n1 n2 d1 d2,
        setup_s3_vectors env bucket n1 d1 = setup_s3_vectors env bucket n2 d2)
    ∧ (∀ env bucket idxName dims arn,
        setup_s3_vectors env bucket idxName dims = some arn →
        firstIndexArn env = some arn) := by
  constructor
  · intro env bucket n1 n2 d1 d2
    rfl
  · intro env bucket idxName dims arn h
    unfold firstIndexArn
    simp only [setup_s3_vectors, setup_s3_vectors_run] at h
    split_ifs at h with h1 h2 <;>
    first
      | simp at h
      | (cases hl : env.listIndexesCall with
         | error m3 => rw [hl] at h; simp at h
         | ok l =>
           rw [hl] at h
           cases l with
           | nil => simp at h
           | cons first rest =>
             simp at h
             simp [h])

/-- Environment used by the C6 witness: two indexes exist, the requested one
listed second. -/
def c6Env : S3VectorsEnv :=
  { createBucketCall := .ok (), createIndexCall := .ok (),
    listIndexesCall := .ok
      [{ indexName := "other-index", indexArn := "arn-other" },
       { indexName := "bedrock-vector-index", indexArn := "arn-requested" }] }

/-- Witness for C6: with an index named other-index listed first, the setup
returns its ARN even though bedrock-vector-index was requested, and that ARN
differs from the ARN of the requested index. -/
theorem setup_s3_vectors_returns_first_index_witness :
    firstIndexArn c6Env = some "arn-other"
    ∧ setup_s3_vectors c6Env "bedrock-vector-bucket" "bedrock-vector-index"
        1024 = some "arn-other"
    ∧ "arn-other" ≠ "arn-requested" := by
  refine ⟨?_, by decide, by decide⟩
  exact setup_s3_vectors_returns_first_index.2 c6Env "bedrock-vector-bucket"
    "bedrock-vector-index" 1024 "arn-other" (by decide)

/-- Helper: the call trace of setup_s3_vectors_run in each of its three
shapes, and the successes its result implies. -/
theorem setup_s3_vectors_run_shape (env : S3VectorsEnv) (b i : String) :
    ((createOrExistsOk env.createBucketCall = false
        ∧ (setup_s3_vectors_run env b i).2 = [Step.createVectorBucket])
      ∨ (createOrExistsOk env.createBucketCall = true
          ∧ createOrExistsOk env.createIndexCall = false
          ∧ (setup_s3_vectors_run env b i).2
              = [Step.createVectorBucket, Step.createVectorIndex])
      ∨ (createOrExistsOk env.createBucketCall = true
          ∧ createOrExistsOk env.createIndexCall = true
          ∧ (setup_s3_vectors_run env b i).2
              = [Step.createVectorBucket, Step.createVectorIndex,
                 Step.listVectorIndexes]))
    ∧ ((setup_s3_vectors_run env b i).1.isSome = true →
        createOrExistsOk env.createBucketCall = true
        ∧ createOrExistsOk env.createIndexCall = true) := by
  cases hb : createOrExistsOk env.createBucketCall with
  | false =>
    refine ⟨Or.inl ⟨rfl, ?_⟩, ?_⟩ <;> simp [setup_s3_vectors_run, hb]
  | true =>
    cases hix : createOrExistsOk env.createIndexCall with
    | false =>
      refine ⟨Or.inr (Or.inl ⟨rfl, rfl, ?_⟩), ?_⟩ <;>
        simp [setup_s3_vectors_run, hb, hix]
    | true =>
      refine ⟨Or.inr (Or.inr ⟨rfl, rfl, ?_⟩), by simp⟩
      cases hl : env.listIndexesCall with
      | error m => simp [setup_s3_vectors_run, hb, hix, hl]
      | ok l =>
        cases l with
        | nil => simp [setup_s3_vectors_run, hb, hix, hl]
        | cons f r => simp [setup_s3_vectors_run, hb, hix, hl]

/-- C3 is violated by the code: in the verification loop of
create_knowledge_base_role, a failed get_role call is retried.  With the
first attempt failing and the second succeeding, the loop makes two get_role
calls and the operation then reports success, so the failed AWS call was
retried instead of the operation reporting failure. -/
theorem role_verification_retries_failed_call :
    (fun attempt => decide (attempt = 1)) 0 = false
    ∧ verifyRoleRun (fun attempt => decide (attempt = 1)) 0 24 = (true, 2) := by
  exact ⟨rfl, by decide⟩

/-- C3 (amended): failure handling is catching named exceptions and printing,
and no failed AWS call is retried, except the role verification of
create_knowledge_base_role, which makes up to 24 get_role attempts before
reporting failure: attach_policy performs every AWS call at most once, and
the verification loop performs at most fuel get_role calls. -/
theorem no_retry_except_role_verification :
    (∀ (env : AttachPolicyEnv) (ty nm arn : String) (c : AttachCall),
        (attach_policy_run env ty nm arn).2.count c ≤ 1)
    ∧ (∀ (ok : Nat → Bool) (i fuel : Nat),
        (verifyRoleRun ok i fuel).2 ≤ fuel) := by
  constructor
  · intro env ty nm arn c
    refine List.nodup_iff_count_le_one.mp ?_ c
    unfold attach_policy_run attachFinal
    split_ifs with h
    · decide
    · cases env.principal with
      | raise m => simp
      | noSuchEntity => simp
      | found =>
        cases env.listAttached with
        | raise m => simp
        | clientError m => cases env.attachCall <;> simp
        | ok arns =>
          by_cases h2 : arn ∈ arns
          · simp [h2]
          · cases env.attachCall <;> simp [h2]
  · intro ok i fuel
    induction fuel generalizing i with
    | zero => simp [verifyRoleRun]
    | succ fuel ih =>
      simp only [verifyRoleRun]
      split_ifs with h1 h2
      · simp
      · simp
      · simpa using Nat.succ_le_succ (ih (i + 1))

/-- C5: setup_complete_knowledge_base is total on its environment: it either
returns None, or returns a pair (knowledge_base_id, vector_index_arn) with
every one of the six steps having succeeded; every raise inside the body is
caught by a handler and no exception propagates. -/
theorem setup_complete_total_or_none (env : SetupEnv) (b i k : String) :
    setup_complete_knowledge_base env b i k = none
    ∨ ∃ kbId arn, setup_complete_knowledge_base env b i k = some (kbId, arn)
        ∧ (load_documents_from_folder env.folder).isEmpty = false
        ∧ setup_s3_vectors env.s3 b i = some arn
        ∧ (create_knowledge_base_role env.role).isSome = true
        ∧ vectorize_and_store_documents env.vec
            (load_documents_from_folder env.folder) = true
        ∧ create_knowledge_base env.kb k = some kbId
        ∧ wait_for_knowledge_base_ready env.waitPolls 60 = true := by
  unfold setup_complete_knowledge_base
  simp only [setup_complete_run]
  cases hpre : env.pre with
  | error m => exact Or.inl rfl
  | ok u =>
    cases hd : (load_documents_from_folder env.folder).isEmpty with
    | true => exact Or.inl rfl
    | false =>
      cases hs : (setup_s3_vectors_run env.s3 b i).1 with
      | none => exact Or.inl rfl
      | some arn =>
        cases hr : create_knowledge_base_role env.role with
        | none => exact Or.inl rfl
        | some rolearn =>
          cases hv : vectorize_and_store_documents env.vec
              (load_documents_from_folder env.folder) with
          | false => exact Or.inl rfl
          | true =>
            cases hk : create_knowledge_base env.kb k with
            | none => exact Or.inl rfl
            | some kbId =>
              cases hw : wait_for_knowledge_base_ready env.waitPolls 60 with
              | false => exact Or.inl rfl
              | true =>
                refine Or.inr ⟨kbId, arn, rfl, rfl, hs, ?_, rfl, rfl, rfl⟩
                simp [hr]

/-- C1 (amended): setup_complete_knowledge_base provisions in the order
vector bucket, vector index, IAM role, document ingestion, knowledge base:
its step trace is always a prefix of setupOrder, and every step appears in
the trace only when each earlier step succeeded. -/
theorem setup_complete_provisions_in_code_order
    (env : SetupEnv) (b i k : String) :
    (∃ n, (setup_complete_run env b i k).2 = setupOrder.take n)
    ∧ (Step.createVectorBucket ∈ (setup_complete_run env b i k).2 →
        (load_documents_from_folder env.folder).isEmpty = false)
    ∧ (Step.createVectorIndex ∈ (setup_complete_run env b i k).2 →
        createOrExistsOk env.s3.createBucketCall = true)
    ∧ (Step.createIamRole ∈ (setup_complete_run env b i k).2 →
        (setup_s3_vectors_run env.s3 b i).1.isSome = true)
    ∧ (Step.ingestDocuments ∈ (setup_complete_run env b i k).2 →
        (create_knowledge_base_role env.role).isSome = true)
    ∧ (Step.createKb ∈ (setup_complete_run env b i k).2 →
        vectorize_and_store_documents env.vec
          (load_documents_from_folder env.folder) = true)
    ∧ (Step.waitKb ∈ (setup_complete_run env b i k).2 →
        (create_knowledge_base env.kb k).isSome = true) := by
  obtain ⟨hshape, himp⟩ := setup_s3_vectors_run_shape env.s3 b i
  simp only [setup_complete_run]
  cases hpre : env.pre with
  | error m =>
    exact ⟨⟨0, rfl⟩, by simp, by simp, by simp, by simp, by simp, by simp⟩
  | ok u =>
    cases hd : (load_documents_from_folder env.folder).isEmpty with
    | true =>
      refine ⟨⟨1, by simp [setupOrder]⟩, ?_, ?_, ?_, ?_, ?_, ?_⟩ <;> simp
    | false =>
      cases hs : (setup_s3_vectors_run env.s3 b i).1 with
      | none =>
        rcases hshape with ⟨hb, ht⟩ | ⟨hb, hix, ht⟩ | ⟨hb, hix, ht⟩
        · rw [ht]
          refine ⟨⟨2, by simp [setupOrder]⟩, fun _ => rfl, ?_, ?_, ?_, ?_, ?_⟩
            <;> intro hmem <;> simp at hmem
        · rw [ht]
          refine ⟨⟨3, by simp [setupOrder]⟩, fun _ => rfl, fun _ => hb,
            ?_, ?_, ?_, ?_⟩ <;> intro hmem <;> simp at hmem
        · rw [ht]
          refine ⟨⟨4, by simp [setupOrder]⟩, fun _ => rfl, fun _ => hb,
            ?_, ?_, ?_, ?_⟩ <;> intro hmem <;> simp at hmem
      | some arn =>
        have hbx := himp (by simp [hs])
        rcases hshape with ⟨hb, ht⟩ | ⟨hb, hix, ht⟩ | ⟨hb, hix, ht⟩
        · rw [hb] at hbx
          exact absurd hbx.1 (by simp)
        · rw [hix] at hbx
          exact absurd hbx.2 (by simp)
        · rw [ht]
          cases hr : create_knowledge_base_role env.role with
          | none =>
            refine ⟨⟨5, by simp [setupOrder]⟩, fun _ => rfl,
              fun _ => hb, fun _ => rfl, ?_, ?_, ?_⟩
              <;> intro hmem <;> simp at hmem
          | some rolearn =>
            cases hv : vectorize_and_store_documents env.vec
                (load_documents_from_folder env.folder) with
            | false =>
              refine ⟨⟨6, by simp [setupOrder]⟩, fun _ => rfl,
                fun _ => hb, fun _ => rfl,
                fun _ => rfl, ?_, ?_⟩ <;> intro hmem <;> simp at hmem
            | true =>
              cases hk : create_knowledge_base env.kb k with
              | none =>
                refine ⟨⟨7, by simp [setupOrder]⟩, fun _ => rfl,
                  fun _ => hb, fun _ => rfl,
                  fun _ => rfl, fun _ => rfl, ?_⟩
                intro hmem
                simp at hmem
              | some kbId =>
                cases hw : wait_for_knowledge_base_ready env.waitPolls 60 with
                | false =>
                  exact ⟨⟨8, by simp [setupOrder]⟩, fun _ => rfl,
                    fun _ => hb, fun _ => rfl,
                    fun _ => rfl, fun _ => rfl, fun _ => rfl⟩
                | true =>
                  exact ⟨⟨8, by simp [setupOrder]⟩, fun _ => rfl,
                    fun _ => hb, fun _ => rfl,
                    fun _ => rfl, fun _ => rfl, fun _ => rfl⟩

/-- Environment in which every step of the complete setup succeeds. -/
def allOkSetupEnv : SetupEnv where
  pre := .ok ()
  folder := .present [{ name := "guide.md", stem := "guide", isFile := true,
                        read := some "hello" }]
  s3 := { createBucketCall := .ok (), createIndexCall := .ok (),
          listIndexesCall := .ok [{ indexName := "bedrock-vector-index",
                                    indexArn := "arn-index" }] }
  role := { callerAccount := .ok "123456789012", getRole := .found,
            createRoleCall := .ok (), attachBedrockPolicy := .ok (),
            attachS3Policy := .ok (), customPolicy := none,
            verifyOk := fun _ => true }
  vec := { embedCall := fun _ => .ok [1], putVectorsCall := .ok () }
  kb := { createCall := .ok "kb-1", listCall := .ok [] }
  waitPolls := fun _ => .status "ACTIVE"

/-- The step trace of the all-success run of the complete setup. -/
def c1Trace : List Step :=
  (setup_complete_run allOkSetupEnv "bedrock-vector-bucket"
    "bedrock-vector-index" "bedrock-knowledge-base").2

/-- C1 as stated is false on the code: in a run where every step succeeds,
the IAM role step and the ingestion step both run before the knowledge-base
step, while the claim orders the knowledge base before the role and the
ingestion. -/
theorem setup_complete_order_counterexample :
    c1Trace = setupOrder
    ∧ Step.createIamRole ∈ c1Trace
    ∧ Step.createKb ∈ c1Trace
    ∧ c1Trace.indexOf Step.createIamRole < c1Trace.indexOf Step.createKb
    ∧ c1Trace.indexOf Step.ingestDocuments < c1Trace.indexOf Step.createKb := by
  decide

/-- Witness for the amended C1 at the all-success environment: the trace is
the full setupOrder and each gating condition holds. -/
theorem setup_complete_provisions_in_code_order_witness :
    c1Trace = setupOrder.take 8
    ∧ (load_documents_from_folder allOkSetupEnv.folder).isEmpty = false
    ∧ createOrExistsOk allOkSetupEnv.s3.createBucketCall = true
    ∧ (setup_s3_vectors_run allOkSetupEnv.s3 "bedrock-vector-bucket"
        "bedrock-vector-index").1.isSome = true
    ∧ (create_knowledge_base_role allOkSetupEnv.role).isSome = true
    ∧ vectorize_and_store_documents allOkSetupEnv.vec
        (load_documents_from_folder allOkSetupEnv.folder) = true
    ∧ (create_knowledge_base allOkSetupEnv.kb
        "bedrock-knowledge-base").isSome = true := by
  obtain ⟨h1, h2, h3, h4, h5, h6, h7⟩ :=
    setup_complete_provisions_in_code_order allOkSetupEnv
      "bedrock-vector-bucket" "bedrock-vector-index" "bedrock-knowledge-base"
  exact ⟨by decide, h2 (by decide), h3 (by decide), h4 (by decide),
    h5 (by decide), h6 (by decide), h7 (by decide)⟩

/-- C10: load_documents_from_folder returns exactly one entry per regular file
whose stripped content is non-empty, with key the file stem, content the
stripped text and the filename recorded, skipping directories, unreadable
files and empty files; a missing folder or a raising iteration yields the
empty list. -/
theorem load_documents_from_folder_spec :
    (∀ entries, load_documents_from_folder (.present entries)
      = entries.filterMap documentOf)
    ∧ load_documents_from_folder .missing = []
    ∧ load_documents_from_folder .iterFails = [] := by
  refine ⟨?_, rfl, rfl⟩
  intro entries
  show loadLoop entries = entries.filterMap documentOf
  induction entries with
  | nil => rfl
  | cons e rest ih =>
    by_cases hf : e.isFile
    · cases hr : e.read with
      | some raw =>
        by_cases hne : pyStrip raw ≠ ""
        · simp [loadLoop, documentOf, hf, hr, hne, List.filterMap_cons, ih]
        · simp [loadLoop, documentOf, hf, hr, hne, List.filterMap_cons, ih]
      | none =>
        simp [loadLoop, documentOf, hf, hr, List.filterMap_cons, ih]
    · simp [loadLoop, documentOf, hf, List.filterMap_cons, ih]

/-- Auxiliary characterisation of the wait loop by its observed trace. -/
theorem waitLoop_eq_mem_observed (polls : Nat → PollOutcome) :
    ∀ fuel i, waitLoop polls i fuel = true
      ↔ ∃ s, PollOutcome.status s ∈ waitObserved polls i fuel ∧ s = "ACTIVE" := by
  intro fuel
  induction fuel with
  | zero =>
    intro i
    simp [waitLoop, waitObserved]
  | succ fuel ih =>
    intro i
    cases hp : polls i with
    | raise m => simp [waitLoop, waitObserved, hp]
    | status s =>
      by_cases ha : s = "ACTIVE"
      · simp [waitLoop, waitObserved, hp, ha]
      · by_cases hfd : s = "FAILED"
        · simp [waitLoop, waitObserved, hp, ha, hfd]
        · simp only [waitLoop, waitObserved, hp, if_neg ha, if_neg hfd,
            List.mem_cons]
          rw [ih (i + 1)]
          constructor
          · rintro ⟨t, ht, rfl⟩
            exact ⟨"ACTIVE", Or.inr ht, rfl⟩
          · rintro ⟨t, ht | ht, rfl⟩
            · cases ht
              exact absurd rfl ha
            · exact ⟨"ACTIVE", ht, rfl⟩

/-- Auxiliary bound on the observed trace length. -/
theorem waitObserved_length_le (polls : Nat → PollOutcome) :
    ∀ fuel i, (waitObserved polls i fuel).length ≤ fuel := by
  intro fuel
  induction fuel with
  | zero => intro i; simp [waitObserved]
  | succ fuel ih =>
    intro i
    cases hp : polls i with
    | raise m => simp [waitObserved, hp]
    | status s =>
      by_cases ha : s = "ACTIVE"
      · simp [waitObserved, hp, ha]
      · by_cases hfd : s = "FAILED"
        · simp [waitObserved, hp, ha, hfd]
        · simp only [waitObserved, hp, if_neg ha, if_neg hfd, List.length_cons]
          exact Nat.succ_le_succ (ih (i + 1))

/-- Auxiliary count of sleeps as the non-terminal polls of the trace. -/
theorem waitSleeps_eq_countP (polls : Nat → PollOutcome) :
    ∀ fuel i, waitSleeps polls i fuel
      = (waitObserved polls i fuel).countP (fun p => nonTerminal p) := by
  intro fuel
  induction fuel with
  | zero => intro i; simp [waitSleeps, waitObserved]
  | succ fuel ih =>
    intro i
    cases hp : polls i with
    | raise m => simp [waitSleeps, waitObserved, hp, List.countP_cons, nonTerminal]
    | status s =>
      by_cases ha : s = "ACTIVE"
      · simp [waitSleeps, waitObserved, hp, ha, List.countP_cons, nonTerminal]
      · by_cases hfd : s = "FAILED"
        · simp [waitSleeps, waitObserved, hp, ha, hfd, List.countP_cons, nonTerminal]
        · simp only [waitSleeps, waitObserved, hp, if_neg ha, if_neg hfd,
            List.countP_cons]
          rw [ih (i + 1)]
          have hnt : nonTerminal (PollOutcome.status s) = true := by
            simp [nonTerminal, ha, hfd]
          simp [hnt]

/-- C4: wait_for_knowledge_base_ready polls get_knowledge_base at most
max_wait_time / 2 times (30 for the default of 60), returns true exactly when
an executed poll observes status ACTIVE (false on FAILED, on a raised poll or
when the budget runs out), and sleeps two seconds after each non-terminal
poll. -/
theorem wait_for_knowledge_base_ready_spec
    (polls : Nat → PollOutcome) (max_wait_time : Nat) :
    (waitObserved polls 0 (max_wait_time / 2)).length ≤ max_wait_time / 2
    ∧ (waitObserved polls 0 (60 / 2)).length ≤ 30
    ∧ (wait_for_knowledge_base_ready polls max_wait_time = true
        ↔ PollOutcome.status "ACTIVE" ∈ waitObserved polls 0 (max_wait_time / 2))
    ∧ 2 * waitSleeps polls 0 (max_wait_time / 2)
        = 2 * (waitObserved polls 0 (max_wait_time / 2)).countP
            (fun p => nonTerminal p) := by
  refine ⟨waitObserved_length_le polls _ 0, waitObserved_length_le polls _ 0, ?_, ?_⟩
  · rw [wait_for_knowledge_base_ready, waitLoop_eq_mem_observed polls]
    constructor
    · rintro ⟨s, hs, rfl⟩
      exact hs
    · intro h
      exact ⟨"ACTIVE", h, rfl⟩
  · rw [waitSleeps_eq_countP polls]

/-- Helper: the index wait loop yields a value within fuel polls exactly when
some earlier poll returns a non-empty list. -/
theorem indexWaitRuns_isSome (lists : Nat → List S3Index) :
    ∀ n i, (indexWaitRuns lists i n).isSome = true
      ↔ ∃ j, j < n ∧ lists (i + j) ≠ [] := by
  intro n
  induction n with
  | zero => intro i; simp [indexWaitRuns]
  | succ n ih =>
    intro i
    cases hl : lists i with
    | cons f r =>
      simp only [indexWaitRuns, hl, Option.isSome_some]
      constructor
      · intro _
        exact ⟨0, Nat.succ_pos n, by simp [hl]⟩
      · intro _
        trivial
    | nil =>
      simp only [indexWaitRuns, hl]
      rw [ih (i + 1)]
      constructor
      · rintro ⟨j, hj, hne⟩
        refine ⟨j + 1, by omega, ?_⟩
        have he : i + (j + 1) = i + 1 + j := by omega
        rw [he]
        exact hne
      · rintro ⟨j, hj, hne⟩
        cases j with
        | zero =>
          rw [Nat.add_zero, hl] at hne
          exact absurd rfl hne
        | succ j =>
          refine ⟨j, by omega, ?_⟩
          have he : i + 1 + j = i + (j + 1) := by omega
          rw [he]
          exact hne

/-- Helper: the status wait loop leaves within fuel polls exactly when some
earlier poll returns ACTIVE or FAILED. -/
theorem kbStatusWaitRuns_isSome (statuses : Nat → String) :
    ∀ n i, (kbStatusWaitRuns statuses i n).isSome = true
      ↔ ∃ j, j < n
          ∧ (statuses (i + j) = "ACTIVE" ∨ statuses (i + j) = "FAILED") := by
  intro n
  induction n with
  | zero => intro i; simp [kbStatusWaitRuns]
  | succ n ih =>
    intro i
    by_cases ha : statuses i = "ACTIVE"
    · simp only [kbStatusWaitRuns, ha, if_pos rfl, Option.isSome_some]
      constructor
      · intro _
        exact ⟨0, Nat.succ_pos n, by simp [ha]⟩
      · intro _
        trivial
    · by_cases hf : statuses i = "FAILED"
      · simp only [kbStatusWaitRuns, if_neg ha, hf, if_pos rfl,
          Option.isSome_some]
        constructor
        · intro _
          exact ⟨0, Nat.succ_pos n, by simp [hf]⟩
        · intro _
          trivial
      · simp only [kbStatusWaitRuns, if_neg ha, if_neg hf]
        rw [ih (i + 1)]
        constructor
        · rintro ⟨j, hj, hor⟩
          refine ⟨j + 1, by omega, ?_⟩
          have he : i + (j + 1) = i + 1 + j := by omega
          rw [he]
          exact hor
        · rintro ⟨j, hj, hor⟩
          cases j with
          | zero =>
            rw [Nat.add_zero] at hor
            rcases hor with h | h
            · exact absurd h ha
            · exact absurd h hf
          | succ j =>
            refine ⟨j, by omega, ?_⟩
            have he : i + 1 + j = i + (j + 1) := by omega
            rw [he]
            exact hor

/-- C8: the readiness wait loops of the course scripts have no iteration or
time bound: within any number of polls, the index wait leaves exactly when a
poll returned a non-empty index list and the status wait leaves exactly when
a poll returned ACTIVE or FAILED (the latter by raising), so under a status
that never changes neither loop ever leaves. -/
theorem course_wait_loops_unbounded :
    (∀ (lists : Nat → List S3Index) (n : Nat),
        (indexWaitRuns lists 0 n).isSome = true ↔ ∃ j, j < n ∧ lists j ≠ [])
    ∧ (∀ (statuses : Nat → String) (n : Nat),
        (kbStatusWaitRuns statuses 0 n).isSome = true
          ↔ ∃ j, j < n
              ∧ (statuses j = "ACTIVE" ∨ statuses j = "FAILED"))
    ∧ (∀ n, indexWaitRuns (fun _ => []) 0 n = none)
    ∧ (∀ (c : String), c ≠ "ACTIVE" → c ≠ "FAILED" →
        ∀ n, kbStatusWaitRuns (fun _ => c) 0 n = none) := by
  refine ⟨?_, ?_, ?_, ?_⟩
  · intro lists n
    rw [indexWaitRuns_isSome lists n 0]
    simp
  · intro statuses n
    rw [kbStatusWaitRuns_isSome statuses n 0]
    simp
  · intro n
    cases hr : indexWaitRuns (fun _ => ([] : List S3Index)) 0 n with
    | none => rfl
    | some v =>
      exfalso
      have : ∃ j, j < n ∧ ([] : List S3Index) ≠ [] := by
        rw [← indexWaitRuns_isSome (fun _ => ([] : List S3Index)) n 0]
        · simp [hr]
      obtain ⟨j, -, hne⟩ := this
      exact hne rfl
  · intro c ha hf n
    cases hr : kbStatusWaitRuns (fun _ => c) 0 n with
    | none => rfl
    | some v =>
      exfalso
      have : ∃ j, j < n ∧ (c = "ACTIVE" ∨ c = "FAILED") := by
        rw [← kbStatusWaitRuns_isSome (fun _ => c) n 0]
        · simp [hr]
      obtain ⟨j, -, h | h⟩ := this
      · exact ha h
      · exact hf h

/-- Witness for C8: with a status stuck at CREATING the knowledge-base wait
loop has made no exit after five polls, and with a list that is never empty
missing it does leave. -/
theorem course_wait_loops_unbounded_witness :
    kbStatusWaitRuns (fun _ => "CREATING") 0 5 = none
    ∧ indexWaitRuns (fun _ => ([] : List S3Index)) 0 5 = none := by
  exact ⟨course_wait_loops_unbounded.2.2.2 "CREATING" (by decide) (by decide) 5,
    course_wait_loops_unbounded.2.2.1 5⟩

/-- C7: every create_index call in the repository uses distanceMetric cosine
and dataType float32, and with the arguments the repository passes at each
site the dimension given to create_index equals the dimensions field of every
Titan embedding request that populates the index, namely 1024. -/
theorem index_dimension_consistent_with_embeddings :
    (∀ b i d, (setup_s3_vectors_createIndexCall b i d).distanceMetric
          = "cosine"
        ∧ (setup_s3_vectors_createIndexCall b i d).dataType = "float32")
    ∧ (∀ b i, (KbTest.createIndexCall b i).distanceMetric = "cosine"
        ∧ (KbTest.createIndexCall b i).dataType = "float32")
    ∧ (∀ b i, (C2U1.createIndexCall b i).distanceMetric = "cosine"
        ∧ (C2U1.createIndexCall b i).dataType = "float32")
    ∧ (∀ b i docs req, req ∈ vectorize_requests docs →
        req.dimensions = (setup_s3_vectors_createIndexCall b i).dimension
        ∧ req.dimensions = 1024)
    ∧ (∀ b i content,
        (KbTest.embeddingRequest content).dimensions
          = (KbTest.createIndexCall b i).dimension
        ∧ (KbTest.embeddingRequest content).dimensions = 1024)
    ∧ (∀ b i content,
        (C2U2.embeddingRequest content).dimensions
          = (C2U1.createIndexCall b i).dimension
        ∧ (C2U2.embeddingRequest content).dimensions = 1024) := by
  refine ⟨fun b i d => ⟨rfl, rfl⟩, fun b i => ⟨rfl, rfl⟩,
    fun b i => ⟨rfl, rfl⟩, ?_, fun b i content => ⟨rfl, rfl⟩,
    fun b i content => ⟨rfl, rfl⟩⟩
  intro b i docs req hmem
  simp only [vectorize_requests, List.mem_map] at hmem
  obtain ⟨doc, -, rfl⟩ := hmem
  exact ⟨rfl, rfl⟩

/-- The sample document used by the C7 witness. -/
def c7Doc : Document :=
  { key := "guide", content := "hello", filename := "guide.md" }

/-- Witness for C7: the concrete embedding request for a one-document
ingestion carries dimension 1024, matching the index configuration. -/
theorem index_dimension_consistent_with_embeddings_witness :
    (embedding_request c7Doc).dimensions
      = (setup_s3_vectors_createIndexCall "bedrock-vector-bucket"
          "bedrock-vector-index").dimension
    ∧ (embedding_request c7Doc).dimensions = 1024 := by
  exact index_dimension_consistent_with_embeddings.2.2.2.1
    "bedrock-vector-bucket" "bedrock-vector-index" [c7Doc]
    (embedding_request c7Doc) (by decide)

/-- Helper: the trace of a phase loop is always a prefix of the full list of
its actions. -/
theorem phaseLoop_prefix (act : String → MainAction) (ok : String → Bool) :
    ∀ ps : List String,
      ∃ rest, ps.map act = (phaseLoop act ok ps).2 ++ rest := by
  intro ps
  induction ps with
  | nil => exact ⟨[], rfl⟩
  | cons p rest ih =>
    by_cases h : ok p = true
    · obtain ⟨r, hr⟩ := ih
      refine ⟨r, ?_⟩
      simp [phaseLoop, h, hr]
    · refine ⟨rest.map act, ?_⟩
      simp [phaseLoop, h]

/-- Helper: a phase loop that reports success performed every action. -/
theorem phaseLoop_complete (act : String → MainAction) (ok : String → Bool) :
    ∀ ps : List String, (phaseLoop act ok ps).1 = true →
      (phaseLoop act ok ps).2 = ps.map act := by
  intro ps
  induction ps with
  | nil => intro _; rfl
  | cons p rest ih =>
    intro h
    by_cases hp : ok p = true
    · simp only [phaseLoop, hp, if_pos] at h ⊢
      simp [ih h]
    · simp [phaseLoop, hp] at h

/-- Helper: a phase loop over items that all succeed reports success with the
full action list. -/
theorem phaseLoop_all_ok (act : String → MainAction) (ok : String → Bool) :
    ∀ ps : List String, (∀ p ∈ ps, ok p = true) →
      phaseLoop act ok ps = (true, ps.map act) := by
  intro ps
  induction ps with
  | nil => intro _; rfl
  | cons p rest ih =>
    intro h
    have hp := h p (by simp)
    have hr := ih (fun q hq => h q (by simp [hq]))
    simp [phaseLoop, hp, hr]

/-- Helper: the tail trace of main is a prefix of the five final steps. -/
theorem mainTailTrace_prefix (env : MainEnv) :
    ∃ rest, [MainAction.createGuardrailStep,
        MainAction.setupKnowledgeBaseStep, MainAction.configureAgentStep,
        MainAction.backupConfigStep, MainAction.launchAgentStep]
      = mainTailTrace env ++ rest := by
  unfold mainTailTrace
  cases env.guardrail with
  | none => exact ⟨_, rfl⟩
  | some g =>
    cases env.kbResult with
    | none => exact ⟨_, rfl⟩
    | some kb =>
      cases env.configureCall with
      | error m => exact ⟨_, rfl⟩
      | ok u => exact ⟨[], by simp⟩

/-- C9: main executes a single strictly sequential sequence of calls in the
order cleanup, user-policy attachment, model enabling, guardrail creation,
knowledge-base setup, agent configure, config backup, launch: its trace is
always a prefix of mainFullOrder, and a fully successful run performs exactly
that sequence.  No construct in the repository creates a thread, process
pool or asynchronous task. -/
theorem main_is_sequential :
    (∀ env : MainEnv, ∃ rest, mainFullOrder = mainTrace env ++ rest)
    ∧ (∀ env : MainEnv,
        (∀ p ∈ USER_POLICIES, env.attachOk p = true) →
        (∀ m ∈ BEDROCK_MODELS, env.enableOk m = true) →
        env.guardrail.isSome = true →
        env.kbResult.isSome = true →
        env.configureCall = .ok () →
        mainTrace env = mainFullOrder) := by
  constructor
  · intro env
    by_cases h1 : (phaseLoop .attachUserPolicy env.attachOk USER_POLICIES).1
        = true
    · by_cases h2 : (phaseLoop .enableModel env.enableOk BEDROCK_MODELS).1
          = true
      · obtain ⟨rt, hrt⟩ := mainTailTrace_prefix env
        refine ⟨rt, ?_⟩
        rw [mainFullOrder, mainTrace]
        simp [h1, h2, phaseLoop_complete _ _ _ h1,
          phaseLoop_complete _ _ _ h2, hrt]
      · obtain ⟨r2, hr2⟩ :=
          phaseLoop_prefix .enableModel env.enableOk BEDROCK_MODELS
        refine ⟨r2 ++ [MainAction.createGuardrailStep,
          MainAction.setupKnowledgeBaseStep, MainAction.configureAgentStep,
          MainAction.backupConfigStep, MainAction.launchAgentStep], ?_⟩
        rw [mainFullOrder, mainTrace]
        simp [h1, h2, phaseLoop_complete _ _ _ h1, hr2]
    · obtain ⟨r1, hr1⟩ :=
        phaseLoop_prefix .attachUserPolicy env.attachOk USER_POLICIES
      refine ⟨r1 ++ BEDROCK_MODELS.map MainAction.enableModel
        ++ [MainAction.createGuardrailStep,
            MainAction.setupKnowledgeBaseStep, MainAction.configureAgentStep,
            MainAction.backupConfigStep, MainAction.launchAgentStep], ?_⟩
      rw [mainFullOrder, mainTrace]
      simp [h1, hr1]
  · intro env hA hE hG hK hC
    obtain ⟨g, hg⟩ := Option.isSome_iff_exists.mp hG
    obtain ⟨kb, hkb⟩ := Option.isSome_iff_exists.mp hK
    rw [mainTrace, mainFullOrder,
      phaseLoop_all_ok MainAction.attachUserPolicy env.attachOk
        USER_POLICIES hA,
      phaseLoop_all_ok MainAction.enableModel env.enableOk
        BEDROCK_MODELS hE]
    simp [mainTailTrace, hg, hkb, hC]

/-- Environment in which every step of the deployment succeeds. -/
def mainAllOkEnv : MainEnv where
  attachOk := fun _ => true
  enableOk := fun _ => true
  guardrail := some { guardrailId := some "gr-1",
                      guardrailArn := some "arn-gr-1",
                      version := some "DRAFT" }
  kbResult := some ("kb-1", "arn-index")
  configureCall := .ok ()
  backupOk := true
  launchCall := .ok ()

/-- Witness for C9: a fully successful deployment performs exactly the
sequential order. -/
theorem main_is_sequential_witness :
    mainTrace mainAllOkEnv = mainFullOrder := by
  exact main_is_sequential.2 mainAllOkEnv (fun p _ => rfl) (fun m _ => rfl)
    rfl rfl rfl

end AgentCourse
